import Mathlib

/-!
Shallow embedding of `statistics_and_trends.py` and proofs about it.

The script is a linear pandas pipeline:
`main` reads `data.csv`, calls `preprocessing` (print-only pass-through),
`plot_relational_plot` (log-binned conversion rates), `plot_statistical_plot`
(correlation heatmaps), `plot_categorical_plot` (threshold buckets),
`statistical_analysis` (four moments) and `writing` (report).

Two complementary models are used:
* a cell-typed column model (`RawDF`) for column lookup, the moment
  calculator and the error-propagation behaviour of the pipeline, and
* a record model (`Row`) for the row-wise transformations performed by the
  plotting steps.

Numeric cells are embedded as rationals and the real-valued statistics
(standard deviation, logarithmic bin edges) as real numbers; plotting and
printing are I/O only and carry no data, so they are not modelled beyond
the data-frame transformations and failure points they induce.
-/

/-- Cell of a pandas column: a numeric value or a string value. -/
inductive Cell where
  | num (q : ℚ)
  | str (s : String)
deriving DecidableEq

/-- Data frame as an association list from column names to columns of cells. -/
abbrev RawDF := List (String × List Cell)

/-- Column access `df[c]`: the first column named `c`, if any. -/
def lookupCol (c : String) : RawDF → Option (List Cell)
  | [] => none
  | (k, v) :: tl => if k = c then some v else lookupCol c tl

/-- Column assignment `df[c] = v`: replaces the column when present,
otherwise appends it (pandas semantics). -/
def setCol (df : RawDF) (c : String) (v : List Cell) : RawDF :=
  if (lookupCol c df).isSome then
    df.map (fun p => if p.1 = c then (c, v) else p)
  else
    df ++ [(c, v)]

/-- Tests whether a cell holds a number. -/
def isNumCell : Cell → Bool
  | .num _ => true
  | .str _ => false

/-- Numeric value of a cell (string cells never reach this in the modelled
regime; the error paths are handled by the `Except` pipeline below). -/
def cellNum : Cell → ℚ
  | .num q => q
  | .str _ => 0

/-- True when column `c` exists in `df`. -/
def hasCol (df : RawDF) (c : String) : Bool :=
  (lookupCol c df).isSome

/-- True when column `c` exists and all its cells are numeric. -/
def numericCol (df : RawDF) (c : String) : Bool :=
  match lookupCol c df with
  | some l => l.all isNumCell
  | none => false

/-- Numeric values of column `c` (empty when the column is missing). -/
def numsOf (df : RawDF) (c : String) : List ℚ :=
  ((lookupCol c df).getD []).map cellNum

/-- Column names of the frame. -/
def colNames (df : RawDF) : List String :=
  df.map (fun p => p.1)

/-- Distinct values of the `test group` column,
`df["test group"].unique()` (first occurrences; only the count is used). -/
def groupsOf (df : RawDF) : List Cell :=
  ((lookupCol "test group" df).getD []).dedup

/-- Row count of the frame: the length of its first column. -/
def nRows (df : RawDF) : ℕ :=
  ((df.headD ("", [])).2).length

/-- Maximum of a list of rationals; `Series.max` of the `total ads` column
(`0` stands for the empty series, whose true maximum is NaN). -/
def listMaxQ : List ℚ → ℚ
  | [] => 0
  | x :: xs => xs.foldl max x

/-- Mean of a list of rationals, `sum / length` (`0/0 = 0` for the empty
list, which pandas reports as NaN; the claims stay in the nonempty regime). -/
def listMeanQ (l : List ℚ) : ℚ :=
  l.sum / (l.length : ℚ)

/-- Integer cast `astype(int)` / `int(x)`: truncation toward zero
(`Int.tdiv`, T-division; e.g. -3/2 becomes -1, see `truncInt_neg_half`). -/
def truncInt (q : ℚ) : ℤ :=
  q.num.tdiv (q.den : ℤ)

/-! ### Row model of the frame used by the plotting steps

A row of `data.csv` with its required columns, plus the two derived columns;
a derived field holds `none` while its column has not been created yet. The
`log_ads_bin` cell is the assigned bucket index (`some none` models the NaN
label pandas gives a value falling in no bucket). -/

/-- Row of the advertising data set. -/
structure Row where
  totalAds : ℚ
  testGroup : String
  converted : ℚ
  mostAdsHour : ℚ
  log_ads_bin : Option (Option ℕ)
  ads_category : Option String
deriving DecidableEq

instance : Inhabited Row :=
  ⟨⟨0, "", 0, 0, none, none⟩⟩

/-- Maximum of the `total ads` column, `df["total ads"].max()`. -/
def maxTA (df : List Row) : ℚ :=
  listMaxQ (df.map (fun r => r.totalAds))

/-! ### Moment calculator (`statistical_analysis`)

`pandas.mean` / `pandas.std` (sample, `ddof=1`) and `scipy.stats.skew` /
`scipy.stats.kurtosis` (biased, Fisher) over the reals. Divisions by zero
follow the Lean convention `x / 0 = 0` (the library reports NaN there; the
claims stay away from those inputs). -/

/-- Mean of a numeric column. -/
noncomputable def meanR (l : List ℚ) : ℝ :=
  ((l.sum : ℚ) : ℝ) / (l.length : ℝ)

/-- Sample variance, `ddof = 1` as in `pandas.Series.std`. -/
noncomputable def sampleVar (l : List ℚ) : ℝ :=
  (l.map (fun x => ((x : ℝ) - meanR l) ^ 2)).sum / ((l.length : ℝ) - 1)

/-- Sample standard deviation, `pandas.Series.std`. -/
noncomputable def stdDev (l : List ℚ) : ℝ :=
  Real.sqrt (sampleVar l)

/-- Biased central moment of order `k`. -/
noncomputable def centralMoment (k : ℕ) (l : List ℚ) : ℝ :=
  (l.map (fun x => ((x : ℝ) - meanR l) ^ k)).sum / (l.length : ℝ)

/-- Skewness as computed by `scipy.stats.skew` (biased). -/
noncomputable def skewnessR (l : List ℚ) : ℝ :=
  centralMoment 3 l / Real.sqrt (centralMoment 2 l) ^ 3

/-- Excess kurtosis as computed by `scipy.stats.kurtosis` (biased, Fisher). -/
noncomputable def kurtosisEx (l : List ℚ) : ℝ :=
  centralMoment 4 l / centralMoment 2 l ^ 2 - 3

/-- Embedding of `statistical_analysis(df, col)` (lines 116-125): every one
of the four reductions is taken over `df['total ads']`; the `col` argument
does not occur in the body. -/
noncomputable def statistical_analysis (df : RawDF) (col : String) :
    ℝ × ℝ × ℝ × ℝ :=
  (meanR (numsOf df "total ads"), stdDev (numsOf df "total ads"),
   skewnessR (numsOf df "total ads"), kurtosisEx (numsOf df "total ads"))

/-! ### Relational plotter (`plot_relational_plot`) -/

/-- Bucket edge `i` of `np.logspace(0, np.log10(M), num=10)` where `M` is
`df["total ads"].max()`: the point `10 ^ (i * log10 M / 9)`. -/
noncomputable def binEdge (df : List Row) (i : ℕ) : ℝ :=
  (10 : ℝ) ^ ((i : ℝ) * Real.logb 10 ((maxTA df : ℚ) : ℝ) / 9)

/-- The ten bucket edges `bins` of `plot_relational_plot` (line 28). -/
noncomputable def relationalBins (df : List Row) : List ℝ :=
  (List.range 10).map (binEdge df)

/-- Bucket assignment of `pd.cut(..., bins)` (line 31): the first interval
`(edges[i], edges[i+1]]` containing `x`, `none` (NaN) when there is none. -/
noncomputable def assignBin (edges : List ℝ) (x : ℝ) : Option ℕ :=
  (List.range (edges.length - 1)).find?
    (fun i => decide (edges.getD i 0 < x) && decide (x ≤ edges.getD (i + 1) 0))

/-- Effect of line 31 on one row: store the assigned bucket in the
`log_ads_bin` column. -/
noncomputable def plot_relational_row (df : List Row) (r : Row) : Row :=
  { r with log_ads_bin := some (assignBin (relationalBins df) ((r.totalAds : ℚ) : ℝ)) }

/-- Data-frame effect of `plot_relational_plot`: the `log_ads_bin` column is
added; everything else about the frame is unchanged (the rest of the
function only draws). -/
noncomputable def plot_relational_transform (df : List Row) : List Row :=
  df.map (plot_relational_row df)

/-- Group of rows plotted for bucket `b` of test group `g` (lines 37-38):
the subset with `test group == g` grouped on the `log_ads_bin` value `b`. -/
noncomputable def relationalSubset (df : List Row) (g : String) (b : ℕ) : List Row :=
  (plot_relational_transform df).filter
    (fun r => decide (r.testGroup = g) && decide (r.log_ads_bin = some (some b)))

/-- Mean conversion rate (in percent) of bucket `b` for test group `g`
(line 38). -/
noncomputable def bucketConvRate (df : List Row) (g : String) (b : ℕ) : ℚ :=
  100 * listMeanQ ((relationalSubset df g b).map (fun r => r.converted))

/-! ### Categorical plotter (`plot_categorical_plot`) -/

/-- Effect of lines 64 and 67 on one row: `converted` is overwritten with
its integer cast and `ads_category` is set from the fixed threshold 100. -/
def plot_categorical_row (r : Row) : Row :=
  { r with
    converted := ((truncInt r.converted : ℤ) : ℚ),
    ads_category := some (if 100 < r.totalAds then "Above 100 Ads" else "Below 100 Ads") }

/-- Data-frame effect of `plot_categorical_plot` (lines 63-67): both column
writes, applied to every row in place. -/
def plot_categorical_transform (df : List Row) : List Row :=
  df.map plot_categorical_row

/-- Conversion rate (in percent) reported by `plot_categorical_plot` for
category `cat` of test group `g` (lines 73-74). -/
def conversionRate (df : List Row) (g cat : String) : ℚ :=
  100 * listMeanQ
    (((plot_categorical_transform df).filter
      (fun r => decide (r.testGroup = g) && decide (r.ads_category = some cat))).map
      (fun r => r.converted))

/-- Frame state after the three plotting steps of `main` (lines 167-169):
`plot_relational_plot` mutates the shared frame, `plot_statistical_plot`
only reads it, `plot_categorical_plot` mutates it again; this is the frame
`statistical_analysis` is then called on. -/
noncomputable def pipelineAfterPlots (df : List Row) : List Row :=
  plot_categorical_transform (plot_relational_transform df)

/-! ### Reporter (`writing`) -/

/-- Two-decimal rendering of a rational, `f"{x:.2f}"` (ties modelled with
round-to-nearest). -/
def fmt2 (q : ℚ) : String :=
  let n : ℤ := round (q * 100)
  let sign := if n < 0 then "-" else ""
  let m := n.natAbs
  let frac := m % 100
  let fracStr := if frac < 10 then "0" ++ toString frac else toString frac
  sign ++ toString (m / 100) ++ "." ++ fracStr

/-- Skew label computed on line 157 (and then never printed). -/
def skew_label (s : ℚ) : String :=
  if |s| < 1 / 2 then "not skewed" else if 0 < s then "right skewed" else "left skewed"

/-- Kurtosis label computed on line 158 (and then never printed). -/
def kurtosis_label (k : ℚ) : String :=
  if |k| < 2 then "mesokurtic" else if 2 < k then "leptokurtic" else "platykurtic"

/-- The three lines printed by `writing(moments, col)` (lines 149-160); the
last line is the literal string of line 159. -/
def writing_output (m : ℚ × ℚ × ℚ × ℚ) (col : String) : List String :=
  ["For the attribute " ++ col ++ ":",
   "Mean = " ++ fmt2 m.1 ++ ", Standard Deviation = " ++ fmt2 m.2.1 ++
     ", Skewness = " ++ fmt2 m.2.2.1 ++ ", and Excess Kurtosis = " ++
     fmt2 m.2.2.2 ++ ".",
   "The data was right/left/not skewed and platy/meso/leptokurtic."]

/-! ### Error-propagating pipeline

Each step of `main` is embedded as an `Except` computation over `RawDF`:
no step of the script contains a `try`/`except`, so an error raised by a
library call (missing column, non-numeric reduction, non-monotonic bins,
duplicate `pd.cut` labels, a subplot index past the 1x2 grid) propagates
out of `main`. Rendering and printing cannot fail on the data and are
dropped; the stored `log_ads_bin` labels are never read again, so the
cell text is modelled opaquely, while their construction and uniqueness
(which `pd.cut` does check) are modelled by `cutLabel`. -/

/-- Bucket edge `i` of `np.logspace(0, np.log10(max ta), num=10)` computed
on line 28 from the numeric `total ads` column `ta`. -/
noncomputable def cutEdge (ta : List ℚ) (i : ℕ) : ℝ :=
  (10 : ℝ) ^ ((i : ℝ) * Real.logb 10 ((listMaxQ ta : ℚ) : ℝ) / 9)

/-- Bucket label `i` built on line 31, `f"{int(bins[i])}-{int(bins[i+1])}"`;
the edges are positive, so `int()` (truncation toward zero) is the floor. -/
noncomputable def cutLabel (ta : List ℚ) (i : ℕ) : String :=
  toString (⌊cutEdge ta i⌋) ++ "-" ++ toString (⌊cutEdge ta (i + 1)⌋)

/-- Failures surfaced by the underlying libraries. -/
inductive Err where
  | missingFile
  | missingCol (c : String)
  | nonNumeric (c : String)
  | badBins
  | dupLabels
  | subplotOverflow
deriving DecidableEq

/-- Column read `df[c]`, raising `KeyError` when absent. -/
def getColE (df : RawDF) (c : String) : Except Err (List Cell) :=
  match lookupCol c df with
  | some l => .ok l
  | none => .error (.missingCol c)

/-- Numeric reduction of a column, raising when a cell is non-numeric. -/
def asNumsE (c : String) (l : List Cell) : Except Err (List ℚ) :=
  if l.all isNumCell then .ok (l.map cellNum) else .error (.nonNumeric c)

/-- Numeric column read: `KeyError` when absent, `TypeError` when not
numeric. -/
def numColE (df : RawDF) (c : String) : Except Err (List ℚ) :=
  getColE df c >>= asNumsE c

/-- Embedding of `preprocessing` (lines 130-146): the prints cannot fail on
the data, the correlation of lines 144 needs both named columns numeric;
the frame itself is returned unchanged. -/
def preprocessingE (df : RawDF) : Except Err RawDF := do
  let _ ← numColE df "total ads"
  let _ ← numColE df "most ads hour"
  Except.ok df

/-- Embedding of `plot_relational_plot` (lines 19-51): reads the numeric
`total ads` column; `pd.cut` (line 31) raises unless the logspace bins
increase (equivalently `1 < max`) and the int-cast edge labels are
pairwise distinct (`labels must be unique`); the `log_ads_bin` column is
written (its label text is never read again, full bin semantics in
`relationalBins` / `assignBin` / `cutLabel`); then `test group` is read,
the group means need the numeric `converted` column, and
`plt.subplot(1, 2, i)` in the loop raises once `i` exceeds 2, i.e. with
more than two distinct test groups. -/
noncomputable def plot_relationalE (df : RawDF) : Except Err RawDF := do
  let ta ← numColE df "total ads"
  if 1 < listMaxQ ta then
    if ((List.range 9).map (cutLabel ta)).Nodup then
      let df1 := setCol df "log_ads_bin" (ta.map (fun _ => Cell.str ""))
      let _ ← getColE df1 "test group"
      let _ ← numColE df1 "converted"
      if (groupsOf df1).length ≤ 2 then
        Except.ok df1
      else
        Except.error Err.subplotOverflow
    else
      Except.error Err.dupLabels
  else
    Except.error Err.badBins

/-- Embedding of `plot_statistical_plot` (lines 94-111): reads `test group`
and the two numeric columns of the correlation matrix; no frame change. -/
def plot_statisticalE (df : RawDF) : Except Err RawDF := do
  let _ ← getColE df "test group"
  let _ ← numColE df "converted"
  let _ ← numColE df "total ads"
  Except.ok df

/-- Embedding of `plot_categorical_plot` (lines 56-89): casts `converted`
to integers in place, derives `ads_category` from the numeric `total ads`
column, then reads `test group` for the grouped means. -/
def plot_categoricalE (df : RawDF) : Except Err RawDF := do
  let cv ← numColE df "converted"
  let df1 := setCol df "converted" (cv.map (fun q => Cell.num ((truncInt q : ℤ) : ℚ)))
  let ta ← numColE df1 "total ads"
  let df2 := setCol df1 "ads_category"
    (ta.map (fun x => Cell.str (if 100 < x then "Above 100 Ads" else "Below 100 Ads")))
  let _ ← getColE df2 "test group"
  Except.ok df2

/-- Failure behaviour of `statistical_analysis`: the four reductions need
the numeric `total ads` column; the moments themselves are total functions
of it (`statistical_analysis` above). -/
def statistical_analysisE (df : RawDF) : Except Err (List ℚ) :=
  numColE df "total ads"

/-- Embedding of `main` (lines 163-173): the fixed pipeline over the one
frame, threaded through each mutating step; `none` stands for an absent
`data.csv`. No step catches errors. -/
noncomputable def mainE (input : Option RawDF) : Except Err Unit := do
  let df ← match input with
    | some d => Except.ok d
    | none => Except.error Err.missingFile
  let df ← preprocessingE df
  let df ← plot_relationalE df
  let df ← plot_statisticalE df
  let df ← plot_categoricalE df
  let _ ← statistical_analysisE df
  Except.ok ()

/-- Well-formed input: the four required columns present, the three numeric
ones numeric, a `total ads` maximum above 1 so that the logspace bins of
the relational plot increase, int-cast bin labels pairwise distinct so
that `pd.cut` accepts them, and at most two distinct test groups so that
`plt.subplot(1, 2, i)` stays in range. -/
noncomputable def wellFormed (df : RawDF) : Bool :=
  numericCol df "total ads" && numericCol df "most ads hour" &&
    numericCol df "converted" && hasCol df "test group" &&
    decide (1 < listMaxQ (numsOf df "total ads")) &&
    decide (((List.range 9).map (cutLabel (numsOf df "total ads"))).Nodup) &&
    decide ((groupsOf df).length ≤ 2)

/-! ### Concrete inputs used by the witnesses and counterexamples -/

/-- Frame whose `most ads hour` column differs from `total ads`. -/
def dfColBug : RawDF :=
  [("total ads", [Cell.num 10, Cell.num 30]),
   ("most ads hour", [Cell.num 1, Cell.num 1]),
   ("test group", [Cell.str "ad", Cell.str "ad"]),
   ("converted", [Cell.num 1, Cell.num 0])]

/-- Frame with both columns read by `preprocessing`. -/
def dfPre : RawDF :=
  [("total ads", [Cell.num 1]), ("most ads hour", [Cell.num 2])]

/-- One-row frame with `total ads` maximum 10. -/
def dfBins : List Row :=
  [⟨10, "ad", 1, 0, none, none⟩]

/-- Two-row frame of the categorical-plotter test: 50/ad/converted and
150/ad/not converted. -/
def dfCat : List Row :=
  [⟨50, "ad", 1, 0, none, none⟩, ⟨150, "ad", 0, 0, none, none⟩]

/-- Two-row frame exercising the threshold at and above 100. -/
def dfThresh : List Row :=
  [⟨100, "ad", 1, 0, none, none⟩, ⟨150, "ad", 0, 0, none, none⟩]

/-- Two-row frame for the mutation claim. -/
def dfMut : List Row :=
  [⟨100, "ad", 1, 0, none, none⟩, ⟨150, "psa", 0, 7, none, none⟩]

/-- Frame whose first row sits exactly on the lowest bin edge. -/
def dfEdge : List Row :=
  [⟨1, "ad", 1, 0, none, none⟩, ⟨10, "ad", 0, 0, none, none⟩]

/-- Well-formed one-row frame: with `total ads` maximum 10^9 the bin edges
are the powers of ten, so the nine int-cast labels are pairwise distinct. -/
def dfOk : RawDF :=
  [("total ads", [Cell.num 1000000000]),
   ("most ads hour", [Cell.num 0]),
   ("test group", [Cell.str "ad"]),
   ("converted", [Cell.num 1])]

/-! ## Helper lemmas -/

lemma ok_bind {α β : Type} (a : α) (f : α → Except Err β) :
    (Except.ok a >>= f) = f a := rfl

lemma error_bind {α β : Type} (e : Err) (f : α → Except Err β) :
    ((Except.error e : Except Err α) >>= f) = Except.error e := rfl

lemma getD_map_row (f : Row → Row) (l : List Row) (i : ℕ) (h : i < l.length) :
    (l.map f).getD i default = f (l.getD i default) := by
  induction l generalizing i with
  | nil => simp at h
  | cons a tl ih =>
    cases i with
    | zero => simp
    | succ n => simpa using ih n (by simpa using h)

lemma plot_categorical_row_category (r : Row) :
    (plot_categorical_row r).ads_category
      = some (if 100 < r.totalAds then "Above 100 Ads" else "Below 100 Ads") := rfl

/-! ## Claims -/

/-- C4: in `plot_categorical_plot`, a row's `ads_category` is
`"Above 100 Ads"` iff its `total ads` value is strictly greater than 100,
and `"Below 100 Ads"` otherwise; a value of exactly 100 is classified
`"Below 100 Ads"`. -/
theorem categorical_threshold (df : List Row) (i : ℕ) (h : i < df.length) :
    (((plot_categorical_transform df).getD i default).ads_category = some "Above 100 Ads"
      ↔ 100 < (df.getD i default).totalAds)
    ∧ ((df.getD i default).totalAds ≤ 100 →
      ((plot_categorical_transform df).getD i default).ads_category
        = some "Below 100 Ads") := by
  have key : (plot_categorical_transform df).getD i default
      = plot_categorical_row (df.getD i default) := by
    rw [plot_categorical_transform, getD_map_row _ _ _ h]
  by_cases hc : 100 < (df.getD i default).totalAds
  · refine ⟨?_, fun hle => absurd hc (not_lt.mpr hle)⟩
    rw [key, plot_categorical_row_category, if_pos hc]
    exact iff_of_true rfl hc
  · refine ⟨?_, fun _ => ?_⟩
    · rw [key, plot_categorical_row_category, if_neg hc]
      refine iff_of_false (fun heq => ?_) hc
      exact absurd (Option.some.inj heq) (by decide)
    · rw [key, plot_categorical_row_category, if_neg hc]

/-- Witness for C4 at the 100-valued row of `dfThresh`. -/
theorem categorical_threshold_witness :
    0 < dfThresh.length ∧
    ((((plot_categorical_transform dfThresh).getD 0 default).ads_category
        = some "Above 100 Ads" ↔ 100 < (dfThresh.getD 0 default).totalAds)
    ∧ ((dfThresh.getD 0 default).totalAds ≤ 100 →
      ((plot_categorical_transform dfThresh).getD 0 default).ads_category
        = some "Below 100 Ads")) :=
  ⟨by decide, categorical_threshold dfThresh 0 (by decide)⟩

/-- C5: on the two-row input 50/"ad"/converted and 150/"ad"/not converted,
the conversion rates of test group "ad" are 100% for "Below 100 Ads" and
0% for "Above 100 Ads". -/
theorem categorical_rates_concrete :
    conversionRate dfCat "ad" "Below 100 Ads" = 100 ∧
    conversionRate dfCat "ad" "Above 100 Ads" = 0 := by
  constructor <;>
    norm_num [conversionRate, listMeanQ, plot_categorical_transform, plot_categorical_row,
      dfCat, List.filter,
      show truncInt 1 = 1 from rfl, show truncInt 0 = 0 from rfl,
      show (decide (("Above 100 Ads" : String) = "Below 100 Ads")) = false from rfl,
      show (decide (("Below 100 Ads" : String) = "Above 100 Ads")) = false from rfl]

/-- C8: `statistical_analysis` is independent of its `col` argument, and
its components are always the four moments of the `total ads` column. -/
theorem statistical_analysis_col_independent (df : RawDF) (c1 c2 : String) :
    statistical_analysis df c1 = statistical_analysis df c2 ∧
    statistical_analysis df c1 =
      (meanR (numsOf df "total ads"), stdDev (numsOf df "total ads"),
       skewnessR (numsOf df "total ads"), kurtosisEx (numsOf df "total ads")) :=
  ⟨rfl, rfl⟩

/-- C1 (code bug): called with `col = "most ads hour"` on `dfColBug`,
`statistical_analysis` returns the mean of `total ads` (20) instead of the
mean of the named column (1). -/
theorem statistical_analysis_ignores_col :
    (statistical_analysis dfColBug "most ads hour").1 = 20 ∧
    meanR (numsOf dfColBug "most ads hour") = 1 ∧ ((20 : ℝ) ≠ 1) := by
  have h1 : numsOf dfColBug "total ads" = [10, 30] := by decide
  have h2 : numsOf dfColBug "most ads hour" = [1, 1] := by decide
  refine ⟨?_, ?_, by norm_num⟩
  · show meanR (numsOf dfColBug "total ads") = 20
    rw [h1, meanR]
    norm_num
  · rw [h2, meanR]
    norm_num

/-- C6 (code bug): the sentence printed by `writing` is the fixed literal
of line 159 for every input, even though the computed (unused) labels of
lines 157-158 distinguish the moments. -/
theorem writing_fixed_sentence :
    (∀ m : ℚ × ℚ × ℚ × ℚ, ∀ col : String,
      (writing_output m col).getD 2 "" =
        "The data was right/left/not skewed and platy/meso/leptokurtic.") ∧
    skew_label 5 = "right skewed" ∧ skew_label (-5) = "left skewed" ∧
    kurtosis_label 5 = "leptokurtic" ∧ kurtosis_label 0 = "mesokurtic" := by
  refine ⟨fun m col => rfl, ?_, ?_, ?_, ?_⟩
  · rw [skew_label, if_neg (by rw [abs_lt]; norm_num), if_pos (by norm_num)]
  · rw [skew_label, if_neg (by rw [abs_lt]; norm_num), if_neg (by norm_num)]
  · rw [kurtosis_label, if_neg (by rw [abs_lt]; norm_num), if_pos (by norm_num)]
  · rw [kurtosis_label, if_pos (by rw [abs_lt]; norm_num)]

/-- C3: whenever `preprocessing` succeeds it returns its input frame
unchanged: same frame, same column names, same row count. -/
theorem preprocessing_passthrough (df df' : RawDF)
    (h : preprocessingE df = Except.ok df') :
    df' = df ∧ colNames df' = colNames df ∧ nRows df' = nRows df := by
  have hdf : df' = df := by
    rw [preprocessingE] at h
    cases h1 : numColE df "total ads" with
    | error e => rw [h1, error_bind] at h; simp at h
    | ok v =>
      rw [h1, ok_bind] at h
      cases h2 : numColE df "most ads hour" with
      | error e => rw [h2, error_bind] at h; simp at h
      | ok w =>
        rw [h2, ok_bind] at h
        simpa using h.symm
  subst hdf
  exact ⟨rfl, rfl, rfl⟩

/-- Witness for C3 on the concrete frame `dfPre`. -/
theorem preprocessing_passthrough_witness :
    preprocessingE dfPre = Except.ok dfPre ∧
    (dfPre = dfPre ∧ colNames dfPre = colNames dfPre ∧ nRows dfPre = nRows dfPre) :=
  ⟨by rfl, preprocessing_passthrough dfPre dfPre (by rfl)⟩

/-! ## Relational-plotter lemmas -/

lemma relationalBins_eq (df : List Row) :
    relationalBins df = [binEdge df 0, binEdge df 1, binEdge df 2, binEdge df 3,
      binEdge df 4, binEdge df 5, binEdge df 6, binEdge df 7, binEdge df 8,
      binEdge df 9] := rfl

lemma maxTA_cast_gt_one (df : List Row) (h : (1 : ℚ) < maxTA df) :
    (1 : ℝ) < ((maxTA df : ℚ) : ℝ) := by
  exact_mod_cast h

lemma logb_maxTA_pos (df : List Row) (h : (1 : ℚ) < maxTA df) :
    0 < Real.logb 10 ((maxTA df : ℚ) : ℝ) :=
  Real.logb_pos (by norm_num) (maxTA_cast_gt_one df h)

lemma binEdge_lt_succ (df : List Row) (h : (1 : ℚ) < maxTA df) (i : ℕ) :
    binEdge df i < binEdge df (i + 1) := by
  have hc := logb_maxTA_pos df h
  rw [binEdge, binEdge,
    Real.rpow_lt_rpow_left_iff (show (1 : ℝ) < 10 by norm_num)]
  push_cast
  have hi := mul_lt_mul_of_pos_right
    (show (i : ℝ) < (i : ℝ) + 1 by linarith) hc
  linarith

lemma binEdge_zero (df : List Row) : binEdge df 0 = 1 := by
  rw [binEdge]
  norm_num

lemma binEdge_nine (df : List Row) (h : (1 : ℚ) < maxTA df) :
    binEdge df 9 = ((maxTA df : ℚ) : ℝ) := by
  rw [binEdge]
  have h9 : ((9 : ℕ) : ℝ) * Real.logb 10 ((maxTA df : ℚ) : ℝ) / 9
      = Real.logb 10 ((maxTA df : ℚ) : ℝ) := by
    push_cast
    ring
  rw [h9]
  exact Real.rpow_logb (by norm_num) (by norm_num)
    (by linarith [maxTA_cast_gt_one df h])

lemma one_le_binEdge (df : List Row) (h : (1 : ℚ) < maxTA df) (i : ℕ) :
    1 ≤ binEdge df i := by
  have hc := (logb_maxTA_pos df h).le
  have hexp : 0 ≤ (i : ℝ) * Real.logb 10 ((maxTA df : ℚ) : ℝ) / 9 :=
    div_nonneg (mul_nonneg (Nat.cast_nonneg i) hc) (by norm_num)
  have h10 := (Real.rpow_le_rpow_left_iff
    (show (1 : ℝ) < 10 by norm_num)).mpr hexp
  rw [Real.rpow_zero] at h10
  rw [binEdge]
  exact h10

lemma relationalBins_getD (df : List Row) (i : ℕ) (h : i < 10) :
    (relationalBins df).getD i 0 = binEdge df i := by
  rw [relationalBins_eq]
  interval_cases i <;> rfl

lemma plot_relational_row_bin (df : List Row) (r : Row) :
    (plot_relational_row df r).log_ads_bin
      = some (assignBin (relationalBins df) ((r.totalAds : ℚ) : ℝ)) := rfl

/-- C2: with a nonempty `total ads` column of maximum above 1, the bucket
edges of `plot_relational_plot` are 10 strictly increasing values (so 9
intervals) running from exactly 1 to exactly `max(total ads)`. -/
theorem relational_bins_spec (df : List Row) (h : (1 : ℚ) < maxTA df) :
    (relationalBins df).length = 10 ∧
    (relationalBins df).length - 1 = 9 ∧
    List.Chain' (fun a b => a < b) (relationalBins df) ∧
    (relationalBins df).head? = some 1 ∧
    (relationalBins df).getLast? = some ((maxTA df : ℚ) : ℝ) := by
  refine ⟨rfl, rfl, ?_, ?_, ?_⟩
  · rw [relationalBins_eq]
    simp only [List.chain'_cons, List.chain'_singleton, and_true]
    exact ⟨binEdge_lt_succ df h 0, binEdge_lt_succ df h 1, binEdge_lt_succ df h 2,
      binEdge_lt_succ df h 3, binEdge_lt_succ df h 4, binEdge_lt_succ df h 5,
      binEdge_lt_succ df h 6, binEdge_lt_succ df h 7, binEdge_lt_succ df h 8⟩
  · rw [relationalBins_eq]
    simp only [List.head?_cons]
    exact congrArg some (binEdge_zero df)
  · have hlast : (relationalBins df).getLast? = some (binEdge df 9) := rfl
    rw [hlast]
    exact congrArg some (binEdge_nine df h)

/-- Witness for C2 on the concrete frame `dfBins` (maximum 10). -/
theorem relational_bins_spec_witness :
    (1 : ℚ) < maxTA dfBins ∧
    ((relationalBins dfBins).length = 10 ∧
     (relationalBins dfBins).length - 1 = 9 ∧
     List.Chain' (fun a b => a < b) (relationalBins dfBins) ∧
     (relationalBins dfBins).head? = some 1 ∧
     (relationalBins dfBins).getLast? = some ((maxTA dfBins : ℚ) : ℝ)) :=
  ⟨by decide, relational_bins_spec dfBins (by decide)⟩

/-- C10: the buckets of `plot_relational_plot` are left-open: a row whose
`total ads` value is at most the lowest edge 1 is assigned to no bucket,
and its row is a member of no group whose mean conversion rate the plot
computes. -/
theorem relational_left_open (df : List Row) (r : Row)
    (hM : (1 : ℚ) < maxTA df) (hx : r.totalAds ≤ 1) :
    assignBin (relationalBins df) ((r.totalAds : ℚ) : ℝ) = none ∧
    ∀ g : String, ∀ b : ℕ, plot_relational_row df r ∉ relationalSubset df g b := by
  have hxR : ((r.totalAds : ℚ) : ℝ) ≤ 1 := by exact_mod_cast hx
  have hnone : assignBin (relationalBins df) ((r.totalAds : ℚ) : ℝ) = none := by
    rw [assignBin]
    have hlen : (relationalBins df).length = 10 := rfl
    rw [hlen]
    apply List.find?_eq_none.mpr
    intro i hi
    have hi9 : i < 9 := by simpa using hi
    rw [Bool.and_eq_true, decide_eq_true_eq, decide_eq_true_eq]
    rintro ⟨h1, -⟩
    rw [relationalBins_getD df i (by omega)] at h1
    have := one_le_binEdge df hM i
    linarith
  refine ⟨hnone, ?_⟩
  intro g b hmem
  rw [relationalSubset, List.mem_filter] at hmem
  obtain ⟨-, hpred⟩ := hmem
  rw [Bool.and_eq_true, decide_eq_true_eq, decide_eq_true_eq] at hpred
  have hbin := hpred.2
  rw [plot_relational_row_bin, hnone] at hbin
  simp at hbin

/-- Witness for C10 on `dfEdge`, whose first row sits on the edge 1. -/
theorem relational_left_open_witness :
    (1 : ℚ) < maxTA dfEdge ∧
    (⟨1, "ad", 1, 0, none, none⟩ : Row).totalAds ≤ 1 ∧
    (assignBin (relationalBins dfEdge)
        (((⟨1, "ad", 1, 0, none, none⟩ : Row).totalAds : ℚ) : ℝ) = none ∧
      ∀ g : String, ∀ b : ℕ,
        plot_relational_row dfEdge ⟨1, "ad", 1, 0, none, none⟩
          ∉ relationalSubset dfEdge g b) :=
  ⟨by norm_num [maxTA, dfEdge, listMaxQ, max_def], by decide,
    relational_left_open dfEdge ⟨1, "ad", 1, 0, none, none⟩
      (by norm_num [maxTA, dfEdge, listMaxQ, max_def]) (by decide)⟩

/-! ## Categorical-plotter frame lemmas -/

lemma plot_relational_row_keeps (df : List Row) (r : Row) :
    (plot_relational_row df r).converted = r.converted ∧
    (plot_relational_row df r).totalAds = r.totalAds :=
  ⟨rfl, rfl⟩

/-- C9: `plot_categorical_plot` rewrites the frame in place: row count kept,
`converted` overwritten with its integer cast, `ads_category` added, all
other columns untouched; and the frame all later pipeline steps see (state
after the three plots) carries exactly these changes. -/
theorem categorical_mutates_in_place (df : List Row) (i : ℕ) (h : i < df.length) :
    (plot_categorical_transform df).length = df.length ∧
    ((plot_categorical_transform df).getD i default).converted
      = ((truncInt (df.getD i default).converted : ℤ) : ℚ) ∧
    ((plot_categorical_transform df).getD i default).ads_category
      = some (if 100 < (df.getD i default).totalAds
          then "Above 100 Ads" else "Below 100 Ads") ∧
    ((plot_categorical_transform df).getD i default).totalAds
      = (df.getD i default).totalAds ∧
    ((plot_categorical_transform df).getD i default).testGroup
      = (df.getD i default).testGroup ∧
    ((plot_categorical_transform df).getD i default).mostAdsHour
      = (df.getD i default).mostAdsHour ∧
    ((plot_categorical_transform df).getD i default).log_ads_bin
      = (df.getD i default).log_ads_bin ∧
    (pipelineAfterPlots df).length = df.length ∧
    ((pipelineAfterPlots df).getD i default).converted
      = ((truncInt (df.getD i default).converted : ℤ) : ℚ) ∧
    ((pipelineAfterPlots df).getD i default).ads_category
      = some (if 100 < (df.getD i default).totalAds
          then "Above 100 Ads" else "Below 100 Ads") := by
  have k1 : (plot_categorical_transform df).getD i default
      = plot_categorical_row (df.getD i default) := by
    rw [plot_categorical_transform, getD_map_row _ _ _ h]
  have hlenr : (plot_relational_transform df).length = df.length := by
    rw [plot_relational_transform, List.length_map]
  have k2 : (plot_relational_transform df).getD i default
      = plot_relational_row df (df.getD i default) := by
    rw [plot_relational_transform, getD_map_row _ _ _ h]
  have k3 : (pipelineAfterPlots df).getD i default
      = plot_categorical_row (plot_relational_row df (df.getD i default)) := by
    rw [pipelineAfterPlots, plot_categorical_transform,
      getD_map_row _ _ _ (by rw [hlenr]; exact h), k2]
  refine ⟨by rw [plot_categorical_transform, List.length_map], ?_, ?_, ?_, ?_, ?_, ?_,
    by rw [pipelineAfterPlots, plot_categorical_transform, List.length_map, hlenr],
    ?_, ?_⟩
  · rw [k1]
    exact rfl
  · rw [k1, plot_categorical_row_category]
  · rw [k1]
    exact rfl
  · rw [k1]
    exact rfl
  · rw [k1]
    exact rfl
  · rw [k1]
    exact rfl
  · rw [k3]
    exact rfl
  · rw [k3, plot_categorical_row_category]
    exact rfl

/-- Witness for C9 on the concrete frame `dfMut`. -/
theorem categorical_mutates_in_place_witness :
    0 < dfMut.length ∧
    ((plot_categorical_transform dfMut).length = dfMut.length ∧
     ((plot_categorical_transform dfMut).getD 0 default).converted
       = ((truncInt (dfMut.getD 0 default).converted : ℤ) : ℚ) ∧
     ((plot_categorical_transform dfMut).getD 0 default).ads_category
       = some (if 100 < (dfMut.getD 0 default).totalAds
           then "Above 100 Ads" else "Below 100 Ads") ∧
     ((plot_categorical_transform dfMut).getD 0 default).totalAds
       = (dfMut.getD 0 default).totalAds ∧
     ((plot_categorical_transform dfMut).getD 0 default).testGroup
       = (dfMut.getD 0 default).testGroup ∧
     ((plot_categorical_transform dfMut).getD 0 default).mostAdsHour
       = (dfMut.getD 0 default).mostAdsHour ∧
     ((plot_categorical_transform dfMut).getD 0 default).log_ads_bin
       = (dfMut.getD 0 default).log_ads_bin ∧
     (pipelineAfterPlots dfMut).length = dfMut.length ∧
     ((pipelineAfterPlots dfMut).getD 0 default).converted
       = ((truncInt (dfMut.getD 0 default).converted : ℤ) : ℚ) ∧
     ((pipelineAfterPlots dfMut).getD 0 default).ads_category
       = some (if 100 < (dfMut.getD 0 default).totalAds
           then "Above 100 Ads" else "Below 100 Ads")) :=
  ⟨by decide, categorical_mutates_in_place dfMut 0 (by decide)⟩

/-! ## Column-store lemmas for the error-propagating pipeline -/

lemma lookupCol_map_set (c c' : String) (v : List Cell) (h : c' ≠ c) :
    ∀ df : RawDF,
      lookupCol c' (df.map (fun p => if p.1 = c then (c, v) else p)) = lookupCol c' df := by
  intro df
  induction df with
  | nil => rfl
  | cons a tl ih =>
    obtain ⟨k, w⟩ := a
    by_cases hk : k = c
    · have hcond : ((k, w) : String × List Cell).1 = c := hk
      rw [List.map_cons, if_pos hcond, lookupCol, lookupCol,
        if_neg (fun hcc => h hcc.symm), if_neg (fun hkc : k = c' => h ((hkc ▸ hk : c' = c))),
        ih]
    · have hcond : ¬(((k, w) : String × List Cell).1 = c) := hk
      rw [List.map_cons, if_neg hcond, lookupCol, lookupCol]
      by_cases hk' : k = c'
      · rw [if_pos hk', if_pos hk']
      · rw [if_neg hk', if_neg hk', ih]

lemma lookupCol_append_single (c c' : String) (v : List Cell) (h : c' ≠ c) :
    ∀ df : RawDF, lookupCol c' (df ++ [(c, v)]) = lookupCol c' df := by
  intro df
  induction df with
  | nil =>
    rw [List.nil_append]
    show (if c = c' then some v else lookupCol c' []) = lookupCol c' []
    rw [if_neg (fun hcc => h hcc.symm)]
  | cons a tl ih =>
    obtain ⟨k, w⟩ := a
    rw [List.cons_append, lookupCol, lookupCol]
    by_cases hk' : k = c'
    · rw [if_pos hk', if_pos hk']
    · rw [if_neg hk', if_neg hk', ih]

lemma lookupCol_setCol_ne (df : RawDF) (c c' : String) (v : List Cell) (h : c' ≠ c) :
    lookupCol c' (setCol df c v) = lookupCol c' df := by
  rw [setCol]
  split_ifs with hs
  · exact lookupCol_map_set c c' v h df
  · exact lookupCol_append_single c c' v h df

lemma lookupCol_map_set_self (c : String) (v : List Cell) :
    ∀ df : RawDF, (lookupCol c df).isSome = true →
      lookupCol c (df.map (fun p => if p.1 = c then (c, v) else p)) = some v := by
  intro df
  induction df with
  | nil => intro hs; simp [lookupCol] at hs
  | cons a tl ih =>
    intro hs
    obtain ⟨k, w⟩ := a
    by_cases hk : k = c
    · have hcond : ((k, w) : String × List Cell).1 = c := hk
      rw [List.map_cons, if_pos hcond, lookupCol, if_pos rfl]
    · have hcond : ¬(((k, w) : String × List Cell).1 = c) := hk
      rw [List.map_cons, if_neg hcond, lookupCol, if_neg hk]
      apply ih
      rw [lookupCol, if_neg hk] at hs
      exact hs

lemma lookupCol_append_self (c : String) (v : List Cell) :
    ∀ df : RawDF, lookupCol c df = none →
      lookupCol c (df ++ [(c, v)]) = some v := by
  intro df
  induction df with
  | nil =>
    intro _
    rw [List.nil_append, lookupCol, if_pos rfl]
  | cons a tl ih =>
    intro hnone
    obtain ⟨k, w⟩ := a
    by_cases hk : k = c
    · rw [lookupCol, if_pos hk] at hnone
      exact absurd hnone (by simp)
    · rw [lookupCol, if_neg hk] at hnone
      rw [List.cons_append, lookupCol, if_neg hk]
      exact ih hnone

lemma lookupCol_setCol_self (df : RawDF) (c : String) (v : List Cell) :
    lookupCol c (setCol df c v) = some v := by
  rw [setCol]
  split_ifs with hs
  · exact lookupCol_map_set_self c v df hs
  · cases hl : lookupCol c df with
    | none => exact lookupCol_append_self c v df hl
    | some l => rw [hl] at hs; simp at hs

lemma hasCol_setCol_ne (df : RawDF) (c c' : String) (v : List Cell) (h : c' ≠ c) :
    hasCol (setCol df c v) c' = hasCol df c' := by
  rw [hasCol, hasCol, lookupCol_setCol_ne df c c' v h]

lemma numericCol_setCol_ne (df : RawDF) (c c' : String) (v : List Cell) (h : c' ≠ c) :
    numericCol (setCol df c v) c' = numericCol df c' := by
  rw [numericCol, numericCol, lookupCol_setCol_ne df c c' v h]

lemma numsOf_setCol_ne (df : RawDF) (c c' : String) (v : List Cell) (h : c' ≠ c) :
    numsOf (setCol df c v) c' = numsOf df c' := by
  rw [numsOf, numsOf, lookupCol_setCol_ne df c c' v h]

lemma numericCol_setCol_num (df : RawDF) (c : String) (l : List ℚ) (f : ℚ → ℚ) :
    numericCol (setCol df c (l.map (fun q => Cell.num (f q)))) c = true := by
  rw [numericCol, lookupCol_setCol_self]
  simp [List.all_map, isNumCell, Function.comp]

lemma groupsOf_setCol_ne (df : RawDF) (c : String) (v : List Cell)
    (h : "test group" ≠ c) :
    groupsOf (setCol df c v) = groupsOf df := by
  rw [groupsOf, groupsOf, lookupCol_setCol_ne df c "test group" v h]

lemma truncInt_neg_half : truncInt ((-3 : ℚ) / 2) = -1 := by
  have hn : ((-3 : ℚ) / 2).num = -3 := by norm_num
  have hd : ((-3 : ℚ) / 2).den = 2 := by norm_num
  rw [truncInt, hn, hd]
  decide

/-! ## Step characterizations -/

lemma getColE_ok (df : RawDF) (c : String) (h : hasCol df c = true) :
    getColE df c = Except.ok ((lookupCol c df).getD []) := by
  rw [hasCol] at h
  cases hl : lookupCol c df with
  | none => rw [hl] at h; simp at h
  | some l => simp only [getColE, hl, Option.getD_some]

lemma getColE_err (df : RawDF) (c : String) (h : hasCol df c = false) :
    getColE df c = Except.error (Err.missingCol c) := by
  rw [hasCol] at h
  cases hl : lookupCol c df with
  | none => simp only [getColE, hl]
  | some l => rw [hl] at h; simp at h

lemma numColE_ok (df : RawDF) (c : String) (h : numericCol df c = true) :
    numColE df c = Except.ok (numsOf df c) := by
  rw [numericCol] at h
  cases hl : lookupCol c df with
  | none => rw [hl] at h; simp at h
  | some l =>
    rw [hl] at h
    rw [numColE]
    simp only [getColE, hl]
    rw [ok_bind, asNumsE, if_pos h, numsOf, hl, Option.getD_some]

lemma numColE_err (df : RawDF) (c : String) (h : numericCol df c = false) :
    ∃ e, numColE df c = Except.error e := by
  rw [numericCol] at h
  cases hl : lookupCol c df with
  | none =>
    refine ⟨Err.missingCol c, ?_⟩
    rw [numColE]
    simp only [getColE, hl]
    rfl
  | some l =>
    rw [hl] at h
    have h' : l.all isNumCell = false := h
    refine ⟨Err.nonNumeric c, ?_⟩
    rw [numColE]
    simp only [getColE, hl]
    rw [ok_bind, asNumsE, if_neg (by simp [h'])]

lemma preprocessingE_ok (df : RawDF) (h1 : numericCol df "total ads" = true)
    (h2 : numericCol df "most ads hour" = true) :
    preprocessingE df = Except.ok df := by
  rw [preprocessingE, numColE_ok df "total ads" h1, ok_bind,
    numColE_ok df "most ads hour" h2, ok_bind]

lemma preprocessingE_err1 (df : RawDF) (h1 : numericCol df "total ads" = false) :
    ∃ e, preprocessingE df = Except.error e := by
  obtain ⟨e, he⟩ := numColE_err df "total ads" h1
  exact ⟨e, by rw [preprocessingE, he, error_bind]⟩

lemma preprocessingE_err2 (df : RawDF) (h1 : numericCol df "total ads" = true)
    (h2 : numericCol df "most ads hour" = false) :
    ∃ e, preprocessingE df = Except.error e := by
  obtain ⟨e, he⟩ := numColE_err df "most ads hour" h2
  exact ⟨e, by rw [preprocessingE, numColE_ok df "total ads" h1, ok_bind, he, error_bind]⟩

lemma plot_relationalE_ok (df : RawDF) (h1 : numericCol df "total ads" = true)
    (hmax : 1 < listMaxQ (numsOf df "total ads"))
    (hnd : ((List.range 9).map (cutLabel (numsOf df "total ads"))).Nodup)
    (htg : hasCol df "test group" = true)
    (hcv : numericCol df "converted" = true)
    (hgrp : (groupsOf df).length ≤ 2) :
    ∃ df', plot_relationalE df = Except.ok df' ∧
      numericCol df' "total ads" = true ∧
      hasCol df' "test group" = true ∧
      numericCol df' "converted" = true := by
  refine ⟨setCol df "log_ads_bin" ((numsOf df "total ads").map (fun _ => Cell.str "")),
    ?_, ?_, ?_, ?_⟩
  · rw [plot_relationalE, numColE_ok df "total ads" h1, ok_bind, if_pos hmax,
      if_pos hnd]
    dsimp only
    rw [getColE_ok _ "test group"
        (by rw [hasCol_setCol_ne df _ _ _ (by decide)]; exact htg), ok_bind,
      numColE_ok _ "converted"
        (by rw [numericCol_setCol_ne df _ _ _ (by decide)]; exact hcv), ok_bind,
      if_pos (show (groupsOf (setCol df "log_ads_bin"
          ((numsOf df "total ads").map (fun _ => Cell.str "")))).length ≤ 2 by
        rw [groupsOf_setCol_ne df _ _ (by decide)]
        exact hgrp)]
  · rw [numericCol_setCol_ne df _ _ _ (by decide)]
    exact h1
  · rw [hasCol_setCol_ne df _ _ _ (by decide)]
    exact htg
  · rw [numericCol_setCol_ne df _ _ _ (by decide)]
    exact hcv

lemma plot_relationalE_err1 (df : RawDF)
    (h1 : numericCol df "total ads" = false) :
    ∃ e, plot_relationalE df = Except.error e := by
  obtain ⟨e, he⟩ := numColE_err df "total ads" h1
  exact ⟨e, by rw [plot_relationalE, he, error_bind]⟩

lemma plot_relationalE_badBins (df : RawDF)
    (h1 : numericCol df "total ads" = true)
    (hmax : ¬ 1 < listMaxQ (numsOf df "total ads")) :
    plot_relationalE df = Except.error Err.badBins := by
  rw [plot_relationalE, numColE_ok df "total ads" h1, ok_bind, if_neg hmax]

lemma plot_relationalE_dupLabels (df : RawDF)
    (h1 : numericCol df "total ads" = true)
    (hmax : 1 < listMaxQ (numsOf df "total ads"))
    (hnd : ¬ ((List.range 9).map (cutLabel (numsOf df "total ads"))).Nodup) :
    plot_relationalE df = Except.error Err.dupLabels := by
  rw [plot_relationalE, numColE_ok df "total ads" h1, ok_bind, if_pos hmax,
    if_neg hnd]

lemma plot_relationalE_err_tg (df : RawDF)
    (h1 : numericCol df "total ads" = true)
    (hmax : 1 < listMaxQ (numsOf df "total ads"))
    (hnd : ((List.range 9).map (cutLabel (numsOf df "total ads"))).Nodup)
    (htg : hasCol df "test group" = false) :
    ∃ e, plot_relationalE df = Except.error e := by
  refine ⟨Err.missingCol "test group", ?_⟩
  rw [plot_relationalE, numColE_ok df "total ads" h1, ok_bind, if_pos hmax,
    if_pos hnd]
  dsimp only
  rw [getColE_err _ "test group"
      (by rw [hasCol_setCol_ne df _ _ _ (by decide)]; exact htg), error_bind]

lemma plot_relationalE_err_cv (df : RawDF)
    (h1 : numericCol df "total ads" = true)
    (hmax : 1 < listMaxQ (numsOf df "total ads"))
    (hnd : ((List.range 9).map (cutLabel (numsOf df "total ads"))).Nodup)
    (htg : hasCol df "test group" = true)
    (hcv : numericCol df "converted" = false) :
    ∃ e, plot_relationalE df = Except.error e := by
  obtain ⟨e, he⟩ := numColE_err
    (setCol df "log_ads_bin" ((numsOf df "total ads").map (fun _ => Cell.str "")))
    "converted" (by rw [numericCol_setCol_ne df _ _ _ (by decide)]; exact hcv)
  refine ⟨e, ?_⟩
  rw [plot_relationalE, numColE_ok df "total ads" h1, ok_bind, if_pos hmax,
    if_pos hnd]
  dsimp only
  rw [getColE_ok _ "test group"
      (by rw [hasCol_setCol_ne df _ _ _ (by decide)]; exact htg), ok_bind, he, error_bind]

lemma plot_relationalE_subplot (df : RawDF)
    (h1 : numericCol df "total ads" = true)
    (hmax : 1 < listMaxQ (numsOf df "total ads"))
    (hnd : ((List.range 9).map (cutLabel (numsOf df "total ads"))).Nodup)
    (htg : hasCol df "test group" = true)
    (hcv : numericCol df "converted" = true)
    (hgrp : ¬ (groupsOf df).length ≤ 2) :
    plot_relationalE df = Except.error Err.subplotOverflow := by
  rw [plot_relationalE, numColE_ok df "total ads" h1, ok_bind, if_pos hmax,
    if_pos hnd]
  dsimp only
  rw [getColE_ok _ "test group"
      (by rw [hasCol_setCol_ne df _ _ _ (by decide)]; exact htg), ok_bind,
    numColE_ok _ "converted"
      (by rw [numericCol_setCol_ne df _ _ _ (by decide)]; exact hcv), ok_bind,
    if_neg (show ¬ (groupsOf (setCol df "log_ads_bin"
        ((numsOf df "total ads").map (fun _ => Cell.str "")))).length ≤ 2 by
      rw [groupsOf_setCol_ne df _ _ (by decide)]
      exact hgrp)]

lemma plot_statisticalE_ok (df : RawDF)
    (htg : hasCol df "test group" = true)
    (hcv : numericCol df "converted" = true)
    (h1 : numericCol df "total ads" = true) :
    plot_statisticalE df = Except.ok df := by
  rw [plot_statisticalE, getColE_ok df "test group" htg, ok_bind,
    numColE_ok df "converted" hcv, ok_bind, numColE_ok df "total ads" h1, ok_bind]

lemma plot_categoricalE_ok (df : RawDF)
    (hcv : numericCol df "converted" = true)
    (h1 : numericCol df "total ads" = true)
    (htg : hasCol df "test group" = true) :
    ∃ df', plot_categoricalE df = Except.ok df' ∧
      numericCol df' "total ads" = true := by
  have hta1 : numericCol
      (setCol df "converted"
        ((numsOf df "converted").map (fun q => Cell.num ((truncInt q : ℤ) : ℚ))))
      "total ads" = true := by
    rw [numericCol_setCol_ne df _ _ _ (by decide)]
    exact h1
  refine ⟨setCol
      (setCol df "converted"
        ((numsOf df "converted").map (fun q => Cell.num ((truncInt q : ℤ) : ℚ))))
      "ads_category"
      ((numsOf
          (setCol df "converted"
            ((numsOf df "converted").map (fun q => Cell.num ((truncInt q : ℤ) : ℚ))))
          "total ads").map
        (fun x => Cell.str (if 100 < x then "Above 100 Ads" else "Below 100 Ads"))),
    ?_, ?_⟩
  · rw [plot_categoricalE, numColE_ok df "converted" hcv, ok_bind]
    dsimp only
    rw [numColE_ok _ "total ads" hta1, ok_bind]
    rw [getColE_ok _ "test group"
        (by rw [hasCol_setCol_ne _ _ _ _ (by decide),
              hasCol_setCol_ne df _ _ _ (by decide)]
            exact htg),
      ok_bind]
  · rw [numericCol_setCol_ne _ _ _ _ (by decide)]
    exact hta1

lemma mainE_some_eq (df : RawDF) :
    mainE (some df) = (preprocessingE df >>= fun d1 =>
      plot_relationalE d1 >>= fun d2 => plot_statisticalE d2 >>= fun d3 =>
      plot_categoricalE d3 >>= fun d4 => statistical_analysisE d4 >>= fun _ =>
      Except.ok ()) := rfl

lemma mainE_none_eq : mainE none = Except.error Err.missingFile := rfl

lemma mainE_some_ok (df : RawDF) (hwf : wellFormed df = true) :
    mainE (some df) = Except.ok () := by
  have hs := hwf
  rw [wellFormed] at hs
  simp only [Bool.and_eq_true, decide_eq_true_eq] at hs
  obtain ⟨⟨⟨⟨⟨⟨h1, h2⟩, hcv⟩, htg⟩, hmax⟩, hnd⟩, hgrp⟩ := hs
  rw [mainE_some_eq, preprocessingE_ok df h1 h2, ok_bind]
  obtain ⟨df1, hrel, hta1, htg1, hcv1⟩ :=
    plot_relationalE_ok df h1 hmax hnd htg hcv hgrp
  rw [hrel, ok_bind, plot_statisticalE_ok df1 htg1 hcv1 hta1, ok_bind]
  obtain ⟨df2, hcat, hta2⟩ := plot_categoricalE_ok df1 hcv1 hta1 htg1
  rw [hcat, ok_bind, statistical_analysisE, numColE_ok df2 "total ads" hta2, ok_bind]

lemma mainE_some_err (df : RawDF) (hwf : wellFormed df = false) :
    ∃ e, mainE (some df) = Except.error e := by
  by_cases h1 : numericCol df "total ads" = true
  · by_cases h2 : numericCol df "most ads hour" = true
    · by_cases hmax : 1 < listMaxQ (numsOf df "total ads")
      · by_cases hnd : ((List.range 9).map (cutLabel (numsOf df "total ads"))).Nodup
        · by_cases htg : hasCol df "test group" = true
          · by_cases hcv : numericCol df "converted" = true
            · by_cases hgrp : (groupsOf df).length ≤ 2
              · exfalso
                rw [wellFormed, h1, h2, hcv, htg] at hwf
                simp [hmax, hnd, hgrp] at hwf
              · exact ⟨Err.subplotOverflow, by
                  rw [mainE_some_eq, preprocessingE_ok df h1 h2, ok_bind,
                    plot_relationalE_subplot df h1 hmax hnd htg hcv hgrp,
                    error_bind]⟩
            · obtain ⟨e, he⟩ := plot_relationalE_err_cv df h1 hmax hnd htg
                (by simpa using hcv)
              exact ⟨e, by
                rw [mainE_some_eq, preprocessingE_ok df h1 h2, ok_bind, he,
                  error_bind]⟩
          · obtain ⟨e, he⟩ := plot_relationalE_err_tg df h1 hmax hnd
              (by simpa using htg)
            exact ⟨e, by
              rw [mainE_some_eq, preprocessingE_ok df h1 h2, ok_bind, he, error_bind]⟩
        · exact ⟨Err.dupLabels, by
            rw [mainE_some_eq, preprocessingE_ok df h1 h2, ok_bind,
              plot_relationalE_dupLabels df h1 hmax hnd, error_bind]⟩
      · exact ⟨Err.badBins, by
          rw [mainE_some_eq, preprocessingE_ok df h1 h2, ok_bind,
            plot_relationalE_badBins df h1 hmax, error_bind]⟩
    · obtain ⟨e, he⟩ := preprocessingE_err2 df h1 (by simpa using h2)
      exact ⟨e, by rw [mainE_some_eq, he, error_bind]⟩
  · obtain ⟨e, he⟩ := preprocessingE_err1 df (by simpa using h1)
    exact ⟨e, by rw [mainE_some_eq, he, error_bind]⟩

/-- C7: no step of the pipeline catches exceptions. `main` succeeds exactly
on a present, well-formed input (required columns present and numeric,
increasing bins with pairwise distinct int-cast labels, at most two test
groups); on every other input some library failure propagates uncaught out
of `main` as an error result (a missing file surfaces as `Err.missingFile`,
a missing column as `Err.missingCol`, non-numeric data fed to a numeric
reducer as `Err.nonNumeric`, a `pd.cut` rejection as `Err.badBins` /
`Err.dupLabels`, an out-of-range subplot index as `Err.subplotOverflow`). -/
theorem main_no_catch (input : Option RawDF) :
    mainE input = Except.ok () ↔
      ∃ df, input = some df ∧ wellFormed df = true := by
  cases input with
  | none =>
    rw [mainE_none_eq]
    constructor
    · intro h
      exact absurd h (by simp)
    · rintro ⟨df, h, -⟩
      cases h
  | some df =>
    constructor
    · intro hok
      refine ⟨df, rfl, ?_⟩
      by_contra hwf
      obtain ⟨e, he⟩ := mainE_some_err df (by simpa using hwf)
      rw [he] at hok
      exact absurd hok (by simp)
    · rintro ⟨df', heq, hwf⟩
      rw [Option.some.injEq] at heq
      subst heq
      exact mainE_some_ok _ hwf

/-! ## A concrete well-formed run -/

lemma cutEdge_dfOk (i : ℕ) :
    cutEdge (numsOf dfOk "total ads") i = (10 : ℝ) ^ i := by
  have hnums : numsOf dfOk "total ads" = [1000000000] := rfl
  rw [cutEdge, hnums]
  have hm : ((listMaxQ [1000000000] : ℚ) : ℝ) = (10 : ℝ) ^ ((9 : ℕ) : ℝ) := by
    rw [Real.rpow_natCast]
    norm_num [listMaxQ]
  rw [hm, Real.logb_rpow (by norm_num : (0 : ℝ) < 10) (by norm_num : (10 : ℝ) ≠ 1)]
  have hexp : (i : ℝ) * ((9 : ℕ) : ℝ) / 9 = (i : ℝ) := by
    push_cast
    field_simp
  rw [hexp, Real.rpow_natCast]

lemma cutLabel_dfOk (i : ℕ) :
    cutLabel (numsOf dfOk "total ads") i
      = toString ((10 ^ i : ℕ) : ℤ) ++ "-" ++ toString ((10 ^ (i + 1) : ℕ) : ℤ) := by
  rw [cutLabel, cutEdge_dfOk, cutEdge_dfOk,
    show (10 : ℝ) ^ i = ((10 ^ i : ℕ) : ℝ) by push_cast; ring,
    show (10 : ℝ) ^ (i + 1) = ((10 ^ (i + 1) : ℕ) : ℝ) by push_cast; ring,
    Int.floor_natCast, Int.floor_natCast]

lemma labels_dfOk_nodup :
    ((List.range 9).map (cutLabel (numsOf dfOk "total ads"))).Nodup := by
  have h : (List.range 9).map (cutLabel (numsOf dfOk "total ads"))
      = [cutLabel (numsOf dfOk "total ads") 0, cutLabel (numsOf dfOk "total ads") 1,
         cutLabel (numsOf dfOk "total ads") 2, cutLabel (numsOf dfOk "total ads") 3,
         cutLabel (numsOf dfOk "total ads") 4, cutLabel (numsOf dfOk "total ads") 5,
         cutLabel (numsOf dfOk "total ads") 6, cutLabel (numsOf dfOk "total ads") 7,
         cutLabel (numsOf dfOk "total ads") 8] := rfl
  rw [h]
  simp only [cutLabel_dfOk]
  decide

lemma wellFormed_dfOk : wellFormed dfOk = true := by
  rw [wellFormed,
    show numericCol dfOk "total ads" = true from rfl,
    show numericCol dfOk "most ads hour" = true from rfl,
    show numericCol dfOk "converted" = true from rfl,
    show hasCol dfOk "test group" = true from rfl,
    decide_eq_true (show (1 : ℚ) < listMaxQ (numsOf dfOk "total ads") by decide),
    decide_eq_true labels_dfOk_nodup,
    decide_eq_true (show (groupsOf dfOk).length ≤ 2 by decide)]
  rfl

/-- Witness for C7: `dfOk` is well formed and the pipeline run on it
returns successfully. -/
theorem main_no_catch_witness :
    wellFormed dfOk = true ∧ mainE (some dfOk) = Except.ok () :=
  ⟨wellFormed_dfOk,
    (main_no_catch (some dfOk)).mpr ⟨dfOk, rfl, wellFormed_dfOk⟩⟩
